import Mathlib

/-
  Verification development for the JARVIS assistant repository.

  Shallow embedding of the command-processing pipeline:
  - src/utils/language_manager.py : LanguageManager (translations, get_text,
    detect_language with its regex-style pattern scoring)
  - src/core/jarvis_brain.py      : JARVISBrain (AIResponse, _analyze_intent,
    _check_system_commands, _prepare_messages, _get_ai_response,
    _process_ai_response, _update_conversation_history, process_command)
  - src/core/learning_engine.py   : LearningEngine.learn_from_interaction,
    LearningEngine.get_user_context
  - src/core/system_controller.py : SystemController.execute_command
  - src/jarvis_main.py            : AdvancedJARVIS.process_command,
    _analyze_context, _get_environment_context

  External effects (HTTP calls, OS actions, the wall clock, the learning
  side tables) are passed in as explicit environment records whose fields
  are `Except`-valued outcomes: `.ok v` models a Python call returning `v`,
  `.error e` models it raising an exception with message `e`.  Python
  attribute access on objects that lack the attribute (the central bug of
  `jarvis_main.process_command`, which calls `.get` on an `AIResponse`
  dataclass) is embedded as an `Except`-valued accessor that returns the
  corresponding `AttributeError`.
-/

namespace Jarvis

/-- Python exception, abstracted to its message string. -/
abbrev PyErr := String

/-- A Python dict of string keys and (stringified) values, used for the
various snapshot dictionaries the collaborators return. -/
abbrev Snapshot := List (String × String)

/-- The `parameters` mapping threaded through intents and responses. -/
abbrev Params := List (String × String)

/-- The two supported languages of `LanguageManager.supported_languages`. -/
inductive Lang where
  | english
  | hindi
deriving DecidableEq, Repr

/-- The string value `self.current_language` holds for each language. -/
def Lang.str : Lang → String
  | .english => "english"
  | .hindi => "hindi"

/-- The default English translation table of
`LanguageManager._load_translations` (src/utils/language_manager.py lines
39-69), key by key. -/
def englishTranslations : String → Option String
  | "welcome_message" => some "Good evening, Sir. JARVIS is online and ready to assist you."
  | "user_prompt" => some "You"
  | "error_processing" => some "I apologize, Sir. There seems to be an issue processing your request."
  | "api_error" => some "I'm experiencing connectivity issues with my AI systems, Sir."
  | "ai_error" => some "My AI processing systems are temporarily unavailable, Sir."
  | "language_switched" => some "Language switched successfully, Sir."
  | "invalid_language" => some "I'm sorry, Sir. That language is not supported."
  | "shutdown_message" => some "Goodbye, Sir. JARVIS going offline."
  | "system_status" => some "System Status"
  | "cpu_usage" => some "CPU Usage"
  | "memory_usage" => some "Memory Usage"
  | "disk_usage" => some "Disk Usage"
  | "network_activity" => some "Network Activity"
  | "temperature" => some "Temperature"
  | "uptime" => some "Uptime"
  | "processes" => some "Active Processes"
  | "listening" => some "Listening..."
  | "processing" => some "Processing your request, Sir..."
  | "command_executed" => some "Command executed successfully, Sir."
  | "command_failed" => some "I'm sorry, Sir. The command could not be executed."
  | "file_created" => some "File created successfully, Sir."
  | "file_deleted" => some "File deleted successfully, Sir."
  | "application_launched" => some "Application launched, Sir."
  | "system_locked" => some "System locked, Sir."
  | "system_shutdown" => some "System shutdown initiated, Sir."
  | "voice_mode_on" => some "Voice mode activated, Sir."
  | "voice_mode_off" => some "Voice mode deactivated, Sir."
  | "learning_mode_on" => some "Learning mode activated, Sir."
  | "learning_mode_off" => some "Learning mode deactivated, Sir."
  | _ => none

/-- The default Hindi translation table of
`LanguageManager._load_translations` (src/utils/language_manager.py lines
70-100), key by key. -/
def hindiTranslations : String → Option String
  | "welcome_message" => some "नमस्कार साहब। जार्विस ऑनलाइन है और आपकी सेवा के लिए तैयार है।"
  | "user_prompt" => some "आप"
  | "error_processing" => some "मुझे खेद है साहब। आपके अनुरोध को संसाधित करने में कोई समस्या है।"
  | "api_error" => some "साहब, मेरे AI सिस्टम में कनेक्टिविटी की समस्या है।"
  | "ai_error" => some "साहब, मेरे AI प्रोसेसिंग सिस्टम अस्थायी रूप से अनुपलब्ध हैं।"
  | "language_switched" => some "भाषा सफलतापूर्वक बदल दी गई, साहब।"
  | "invalid_language" => some "मुझे खेद है साहब। वह भाषा समर्थित नहीं है।"
  | "shutdown_message" => some "अलविदा साहब। जार्विस ऑफलाइन हो रहा है।"
  | "system_status" => some "सिस्टम स्थिति"
  | "cpu_usage" => some "CPU उपयोग"
  | "memory_usage" => some "मेमोरी उपयोग"
  | "disk_usage" => some "डिस्क उपयोग"
  | "network_activity" => some "नेटवर्क गतिविधि"
  | "temperature" => some "तापमान"
  | "uptime" => some "अपटाइम"
  | "processes" => some "सक्रिय प्रक्रियाएं"
  | "listening" => some "सुन रहा हूं..."
  | "processing" => some "आपके अनुरोध को संसाधित कर रहा हूं, साहब..."
  | "command_executed" => some "कमांड सफलतापूर्वक निष्पादित, साहब।"
  | "command_failed" => some "मुझे खेद है साहब। कमांड निष्पादित नहीं हो सका।"
  | "file_created" => some "फाइल सफलतापूर्वक बनाई गई, साहब।"
  | "file_deleted" => some "फाइल सफलतापूर्वक हटाई गई, साहब।"
  | "application_launched" => some "एप्लिकेशन लॉन्च किया गया, साहब।"
  | "system_locked" => some "सिस्टम लॉक किया गया, साहब।"
  | "system_shutdown" => some "सिस्टम शटडाउन शुरू किया गया, साहब।"
  | "voice_mode_on" => some "वॉयस मोड सक्रिय किया गया, साहब।"
  | "voice_mode_off" => some "वॉयस मोड निष्क्रिय किया गया, साहब।"
  | "learning_mode_on" => some "लर्निंग मोड सक्रिय किया गया, साहब।"
  | "learning_mode_off" => some "लर्निंग मोड निष्क्रिय किया गया, साहब।"
  | _ => none

/-- `self.translations[lang][key]` as an optional lookup. -/
def translations : Lang → String → Option String
  | .english, key => englishTranslations key
  | .hindi, key => hindiTranslations key

/-- `LanguageManager.get_text` (src/utils/language_manager.py lines
177-194): look the key up in the requested (or current) language, fall
back to English, and finally to the key itself.  The body cannot raise, so
the source's catch-all except branch is dead and the function is total. -/
def get_text (current : Lang) (key : String) (language : Option Lang) : String :=
  let lang := language.getD current
  match translations lang key with
  | some t => t
  | none =>
    match translations Lang.english key with
    | some t => t
    | none => key

/-! Language detection (`LanguageManager.detect_language`,
src/utils/language_manager.py lines 141-167, with the pattern tables of
`_load_language_patterns`, lines 120-139).  Text is modelled as `List Char`.
The regex patterns fall into two shapes: a character class counted once per
matching character, and a word-boundary-delimited alternation of fixed
vocabulary, counted by a left-to-right non-overlapping scan as `re.findall`
does. -/

/-- The character class `[ऀ-ॿ]` (Devanagari block). -/
def isDevanagari (c : Char) : Bool := 0x0900 ≤ c.toNat && c.toNat ≤ 0x097F

/-- The character class `[a-zA-Z]`. -/
def isLatinLetter (c : Char) : Bool :=
  (97 ≤ c.toNat && c.toNat ≤ 122) || (65 ≤ c.toNat && c.toNat ≤ 90)

/-- Python `str.lower` on one character, for the alphabets that occur here:
ASCII upper-case letters are shifted to lower case, everything else
(including Devanagari, which has no case) is unchanged. -/
def pyLower (c : Char) : Char :=
  if 65 ≤ c.toNat && c.toNat ≤ 90 then Char.ofNat (c.toNat + 32) else c

/-- A word character for the `\b` boundaries of the vocabulary patterns:
ASCII alphanumerics, underscore, and the Devanagari block (Python's `\w`
over the alphabets occurring in these patterns and inputs). -/
def isWordChar (c : Char) : Bool := c.isAlphanum || c = '_' || isDevanagari c

/-- Number of characters of `text` matching a character class: each
matching character is one `re.findall` match of a one-character class. -/
def charClassCount (p : Char → Bool) (text : List Char) : Nat :=
  (text.filter p).length

/-- One alternative `w` of a `\b(w1|w2|...)\b` pattern matches at the head
of `text`: it is a literal prefix and the character after it (if any) is
not a word character (the caller has already checked the boundary before
the match via its scanning state). -/
def altMatch (w : List Char) (text : List Char) : Bool :=
  w.isPrefixOf text &&
    (match text.drop w.length with
     | [] => true
     | c :: _ => !(isWordChar c))

/-- The first alternative (in the pattern's order) matching at the head of
`text`, as Python's alternation tries alternatives left to right. -/
def firstAlt (alts : List (List Char)) (text : List Char) : Option (List Char) :=
  alts.find? (fun w => altMatch w text)

/-- Count of non-overlapping matches of `\b(alts...)\b` in `text`, scanning
left to right as `re.findall` does.  `prevIsWord` records whether the
character before the current position is a word character (so that the
leading `\b` fails there); it starts `false` at the beginning of the
string.  After a match the scan resumes past the matched word. -/
def countWordMatches (alts : List (List Char)) : List Char → Bool → Nat
  | [], _ => 0
  | c :: rest, prevIsWord =>
    if prevIsWord then
      countWordMatches alts rest (isWordChar c)
    else
      match firstAlt alts (c :: rest) with
      | some (a :: w) =>
          1 + countWordMatches alts (rest.drop w.length)
                (isWordChar ((a :: w).getLast (by simp)))
      | _ => countWordMatches alts rest (isWordChar c)
termination_by t _ => t.length
decreasing_by
  all_goals simp_all [List.length_drop]
  omega

/-- The Hindi vocabulary of the second `hindi` pattern
(src/utils/language_manager.py line 127). -/
def hindiWords1 : List (List Char) :=
  ["क्या".toList, "कैसे".toList, "कहाँ".toList, "कब".toList, "क्यों".toList,
   "जार्विस".toList, "सिस्टम".toList, "फाइल".toList, "खोलो".toList,
   "बंद".toList, "करो".toList, "दिखाओ".toList, "बताओ".toList]

/-- The Hindi vocabulary of the third `hindi` pattern (line 129). -/
def hindiWords2 : List (List Char) :=
  ["आप".toList, "मैं".toList, "हम".toList, "यह".toList, "वह".toList,
   "कौन".toList, "किसका".toList, "किसको".toList]

/-- The English vocabulary of the second `english` pattern (line 135). -/
def englishWords1 : List (List Char) :=
  ["what".toList, "how".toList, "where".toList, "when".toList, "why".toList,
   "jarvis".toList, "system".toList, "file".toList, "open".toList,
   "close".toList, "show".toList, "tell".toList, "the".toList,
   "and".toList, "or".toList, "but".toList]

/-- The English vocabulary of the third `english` pattern (line 137). -/
def englishWords2 : List (List Char) :=
  ["you".toList, "i".toList, "we".toList, "this".toList, "that".toList,
   "who".toList, "whose".toList, "whom".toList]

/-- Total match count of the three `hindi` patterns over (lower-cased)
`text`. -/
def hindiScore (text : List Char) : Nat :=
  charClassCount isDevanagari text
    + countWordMatches hindiWords1 text false
    + countWordMatches hindiWords2 text false

/-- Total match count of the three `english` patterns over (lower-cased)
`text`. -/
def englishScore (text : List Char) : Nat :=
  charClassCount isLatinLetter text
    + countWordMatches englishWords1 text false
    + countWordMatches englishWords2 text false

/-- `LanguageManager.detect_language` (lines 141-167): empty input returns
the current language; otherwise the input is lower-cased, both languages
are scored against their pattern lists, the strictly higher score wins,
and a tie keeps the current language.  The body cannot raise, so the
source's catch-all except branch is dead. -/
def detect_language (text : List Char) (current : Lang) : Lang :=
  if text.isEmpty then current
  else
    let text_lower := text.map pyLower
    let h := hindiScore text_lower
    let e := englishScore text_lower
    if h > e then .hindi
    else if e > h then .english
    else current

/-! Intent classification (`JARVISBrain._analyze_intent`,
src/core/jarvis_brain.py lines 293-331) and the structured response types
of the brain. -/

/-- Python substring containment `w in t` (`str.__contains__`). -/
def containsSub (w : List Char) : List Char → Bool
  | [] => w.isEmpty
  | c :: rest => w.isPrefixOf (c :: rest) || containsSub w rest

/-- `any(word in command_lower for word in words)`. -/
def containsAny (words : List (List Char)) (t : List Char) : Bool :=
  words.any (fun w => containsSub w t)

/-- The intent dict built by `_analyze_intent`: `type`, `confidence`,
`entities`, `action` and `parameters` keys.  Only `type` and `confidence`
are ever assigned after initialization; the float confidences are embedded
as exact rationals. -/
structure Intent where
  type : String
  confidence : ℚ
  entities : List String := []
  action : Option String := none
  parameters : Params := []
deriving DecidableEq, Repr

/-- Keyword list of the `system_control` branch (line 307). -/
def systemControlWords : List (List Char) :=
  ["shutdown".toList, "restart".toList, "sleep".toList, "lock".toList]

/-- Keyword list of the `file_operation` branch (line 312). -/
def fileOperationWords : List (List Char) :=
  ["open".toList, "create".toList, "delete".toList, "file".toList]

/-- Keyword list of the `application_control` branch (line 317). -/
def applicationControlWords : List (List Char) :=
  ["launch".toList, "start".toList, "close".toList, "app".toList]

/-- Keyword list of the `information_request` branch (line 322). -/
def informationRequestWords : List (List Char) :=
  ["what".toList, "how".toList, "when".toList, "where".toList, "why".toList]

/-- Keyword list of the `system_status` branch (line 327). -/
def systemStatusWords : List (List Char) :=
  ["status".toList, "health".toList, "performance".toList]

/-- `JARVISBrain._analyze_intent` (lines 293-331): lower-case the command,
then run the if/elif chain of substring-membership tests; the first
matching branch sets the type and confidence, otherwise the initial
`general`/0.5 intent is returned. -/
def _analyze_intent (command : List Char) : Intent :=
  let command_lower := command.map pyLower
  if containsAny systemControlWords command_lower then
    { type := "system_control", confidence := 0.9 }
  else if containsAny fileOperationWords command_lower then
    { type := "file_operation", confidence := 0.8 }
  else if containsAny applicationControlWords command_lower then
    { type := "application_control", confidence := 0.8 }
  else if containsAny informationRequestWords command_lower then
    { type := "information_request", confidence := 0.7 }
  else if containsAny systemStatusWords command_lower then
    { type := "system_status", confidence := 0.9 }
  else
    { type := "general", confidence := 0.5 }

/-- The classifier as the spec describes it: a fixed ordered list of
(category, keyword-set, confidence) entries, first match wins, default
`general`/0.5.  Stated from the spec's words, to be compared with
`_analyze_intent`. -/
def intentTable : List (String × List (List Char) × ℚ) :=
  [("system_control", systemControlWords, 0.9),
   ("file_operation", fileOperationWords, 0.8),
   ("application_control", applicationControlWords, 0.8),
   ("information_request", informationRequestWords, 0.7),
   ("system_status", systemStatusWords, 0.9)]

/-- First-match-wins classification over `intentTable` (spec 4.3). -/
def classifySpec (command : List Char) : Intent :=
  let command_lower := command.map pyLower
  match intentTable.find? (fun e => containsAny e.2.1 command_lower) with
  | some e => { type := e.1, confidence := e.2.2 }
  | none => { type := "general", confidence := 0.5 }

/-! The brain's structured response and its response pipeline
(src/core/jarvis_brain.py). -/

/-- A conversation message `{"role": ..., "content": ...}`. -/
structure Msg where
  role : String
  content : String
deriving DecidableEq, Repr

/-- The environment snapshot dict built by
`AdvancedJARVIS._get_environment_context` (src/jarvis_main.py lines
320-328). -/
structure EnvCtx where
  time_of_day : String
  day_of_week : String
  system_load : Snapshot
  network_status : Snapshot
  active_applications : List String
deriving DecidableEq, Repr

/-- The context dict built by `AdvancedJARVIS._analyze_context`
(src/jarvis_main.py lines 310-318).  The wall-clock timestamp is carried
as its rendered string. -/
structure Ctx where
  timestamp : String
  language : Lang
  system_state : Snapshot
  user_history : Snapshot
  environment : EnvCtx
deriving DecidableEq, Repr

/-- The `AIResponse` dataclass (src/core/jarvis_brain.py lines 20-31),
with its field defaults. -/
structure AIResponse where
  text : String
  confidence : ℚ
  requires_system_action : Bool := false
  requires_hardware_action : Bool := false
  system_command : Option String := none
  hardware_command : Option String := none
  parameters : Option Params := none
  context : Option Ctx := none
  success : Bool := true
deriving DecidableEq, Repr

/-- The dict `_check_system_commands` returns when the intent requires a
system action (lines 333-342). -/
structure SystemAction where
  type : String
  command : String
  parameters : Params
deriving DecidableEq, Repr

/-- `JARVISBrain._check_system_commands` (lines 333-342): intents of the
four action categories yield an action dict, others `None`. -/
def _check_system_commands (command : String) (intent : Intent) :
    Option SystemAction :=
  if intent.type ∈ ["system_control", "file_operation",
                    "application_control", "system_status"] then
    some { type := intent.type, command := command,
           parameters := intent.parameters }
  else
    none

/-- Two-decimal rendering of a confidence, for the `:.2f` format in the
context block (display only; exact for the confidences that occur). -/
def format2f (q : ℚ) : String :=
  let c : Int := (q * 100).floor
  let ip := c / 100
  let fp := (c % 100).toNat
  toString ip ++ "." ++ (if fp < 10 then "0" else "") ++ toString fp

/-- The `context_info` system message `_prepare_messages` synthesizes from
the context dict and the intent (lines 353-361). -/
def context_info (c : Ctx) (intent : Intent) : String :=
  "\nCurrent Context:\n- Time: " ++ c.timestamp
    ++ "\n- Language: " ++ c.language.str
    ++ "\n- System Load: "
    ++ ((c.system_state.lookup "cpu_percent").getD "Unknown")
    ++ "%\n- Intent: " ++ intent.type
    ++ " (confidence: " ++ format2f intent.confidence ++ ")\n"

/-- `JARVISBrain._prepare_messages` (lines 344-366): the system prompt,
then `conversation_history[-5:]` (the last five messages; the
`if self.conversation_history else []` guard is equivalent to slicing the
empty list), then — only when a context dict was passed (it always has
keys, so it is truthy exactly when present) — the synthesized context
message, then the user command. -/
def _prepare_messages (systemPrompt : String) (conversationHistory : List Msg)
    (command : String) (context : Option Ctx) (intent : Intent) : List Msg :=
  let messages := [Msg.mk "system" systemPrompt]
  let recent_history :=
    conversationHistory.drop (conversationHistory.length - 5)
  let messages := messages ++ recent_history
  let messages :=
    match context with
    | some c => messages ++ [Msg.mk "system" (context_info c intent)]
    | none => messages
  messages ++ [Msg.mk "user" command]

/-- The outcome of `requests.post` plus the subsequent body parsing: the
HTTP status code, and the (fallible) extraction
`response.json()['choices'][0]['message']['content'].strip()`. -/
structure HttpResp where
  status_code : Nat
  content : Except PyErr String
deriving Repr

/-- `JARVISBrain._get_ai_response` (lines 368-404): a transport failure or
a parse failure is caught by the function's own except branch and yields
the localized `ai_error` text; a non-200 status yields the localized
`api_error` text; a 200 with a parsable body yields the content. -/
def _get_ai_response (current : Lang) (post : Except PyErr HttpResp) :
    String :=
  match post with
  | .error _ => get_text current "ai_error" none
  | .ok r =>
    if r.status_code = 200 then
      match r.content with
      | .ok s => s
      | .error _ => get_text current "ai_error" none
    else
      get_text current "api_error" none

/-- `JARVISBrain._process_ai_response` (lines 406-419): wrap the AI text
with fixed confidence 0.8 and the context; when a system action was
detected, set the system-action fields (`requires_hardware_action` and
`hardware_command` are never assigned and keep their defaults). -/
def _process_ai_response (ai_text : String) (system_action : Option SystemAction)
    (context : Option Ctx) : AIResponse :=
  match system_action with
  | none => { text := ai_text, confidence := 0.8, context := context }
  | some sa =>
    { text := ai_text, confidence := 0.8, context := context,
      requires_system_action := true, system_command := some sa.type,
      parameters := some sa.parameters }

/-- `JARVISBrain._update_conversation_history` (lines 421-430): append the
user/assistant pair, then trim to the last 20 messages when the length
exceeds 20 (`history[-20:]`). -/
def _update_conversation_history (history : List Msg) (command : String)
    (responseText : String) : List Msg :=
  let h := history ++ [Msg.mk "user" command, Msg.mk "assistant" responseText]
  if h.length > 20 then h.drop (h.length - 20) else h

/-- The brain's external dependencies: the fixed system prompt and the
outcome of the one `requests.post` call as a function of the message list
sent. -/
structure BrainEnv where
  systemPrompt : String
  post : List Msg → Except PyErr HttpResp

/-- `JARVISBrain.process_command` (lines 249-291): analyze intent, check
for a system action, prepare the messages, call the AI, wrap the reply,
update the history.  Every step of the body is total in this embedding
(the fallible HTTP call is absorbed inside `_get_ai_response` exactly as
the source's try/except does), so the function always returns an
`AIResponse` — the dataclass, never a dict — together with the updated
conversation history. -/
def JARVISBrain.process_command (env : BrainEnv) (current : Lang)
    (history : List Msg) (command : String) (context : Option Ctx) :
    AIResponse × List Msg :=
  let intent := _analyze_intent command.toList
  let system_action := _check_system_commands command intent
  let messages := _prepare_messages env.systemPrompt history command context intent
  let ai_text := _get_ai_response current (env.post messages)
  let response := _process_ai_response ai_text system_action context
  (response, _update_conversation_history history command response.text)

/-! The learning engine's interaction log
(`LearningEngine.learn_from_interaction`, src/core/learning_engine.py
lines 172-200) and user-context snapshot (`get_user_context`, lines
337-352). -/

/-- One interaction record as `learn_from_interaction` builds it. -/
structure Interaction where
  timestamp : String
  command : String
  responseText : String
  feedback : Option String := none
  context : Snapshot := []
deriving DecidableEq, Repr

/-- `LearningEngine.learn_from_interaction` (lines 172-200), restricted to
its effect on `self.user_interactions`: when learning is disabled the call
returns at once; otherwise the record is appended and the list trimmed to
the last 10000 entries when it exceeds 10000 (`user_interactions[-10000:]`;
`_update_models` only touches the side tables). -/
def learn_from_interaction (learning_enabled : Bool)
    (user_interactions : List Interaction) (record : Interaction) :
    List Interaction :=
  if learning_enabled = false then user_interactions
  else
    let u := user_interactions ++ [record]
    if u.length > 10000 then u.drop (u.length - 10000) else u

/-- `LearningEngine.get_user_context` (lines 337-352): its whole body is
wrapped in try/except, so a failure of any of the summary computations
degrades to the empty dict. -/
def LearningEngine.get_user_context (body : Except PyErr Snapshot) :
    Snapshot :=
  match body with
  | .ok s => s
  | .error _ => []

/-! The system controller's command executor
(`SystemController.execute_command`, src/core/system_controller.py lines
283-304).  The four `_handle_*` helpers perform real OS work and are
passed in as `Except`-valued behaviours. -/

/-- Outcomes of the four `_handle_*` helpers `execute_command` can
delegate to. -/
structure SysCtrlEnv where
  handleSystemControl : Params → Except PyErr String
  handleFileOperation : Params → Except PyErr String
  handleApplicationControl : Params → Except PyErr String
  handleSystemStatus : Params → Except PyErr String

/-- The body of `execute_command`'s try block: dispatch on the command
name; an unknown command yields the `Unknown system command` string. -/
def sysBody (env : SysCtrlEnv) (command : String) (parameters : Params) :
    Except PyErr String :=
  if command = "system_control" then env.handleSystemControl parameters
  else if command = "file_operation" then env.handleFileOperation parameters
  else if command = "application_control" then
    env.handleApplicationControl parameters
  else if command = "system_status" then env.handleSystemStatus parameters
  else .ok ("Unknown system command: " ++ command)

/-- `SystemController.execute_command` (lines 283-304): the try block's
body, with any exception caught and converted to the
`Error executing command: ...` string — the function never raises past its
boundary and always returns a string. -/
def SystemController.execute_command (env : SysCtrlEnv) (command : String)
    (parameters : Params) : String :=
  match sysBody env command parameters with
  | .ok s => s
  | .error e => "Error executing command: " ++ e

/-! Context assembly (`AdvancedJARVIS._analyze_context` and
`_get_environment_context`, src/jarvis_main.py lines 310-328).  Each
collaborator call is an `Except`-valued outcome; the two `strftime`
renderings and the wall-clock timestamp are plain strings.  Note that
neither function has a try/except of its own: a collaborator's exception
propagates out of context assembly. -/

/-- The collaborator calls context assembly makes, in source order.
`get_user_context_body` is the body of `LearningEngine.get_user_context`
before that function's own catch-all.  `get_system_load` and
`get_active_applications` are attribute lookups on `SystemController`; the
class defines neither method, so in the unmodified program both calls
raise `AttributeError`. -/
structure ContextEnv where
  now : String
  time_of_day : String
  day_of_week : String
  get_system_state : Except PyErr Snapshot
  get_user_context_body : Except PyErr Snapshot
  get_system_load : Except PyErr Snapshot
  get_status : Except PyErr Snapshot
  get_active_applications : Except PyErr (List String)

/-- `AdvancedJARVIS._get_environment_context` (lines 320-328): build the
environment dict, evaluating the collaborator calls in the dict literal's
key order; any exception propagates. -/
def _get_environment_context (env : ContextEnv) : Except PyErr EnvCtx := do
  let load ← env.get_system_load
  let status ← env.get_status
  let apps ← env.get_active_applications
  pure { time_of_day := env.time_of_day, day_of_week := env.day_of_week,
         system_load := load, network_status := status,
         active_applications := apps }

/-- `AdvancedJARVIS._analyze_context` (lines 310-318): build the context
dict in key order.  Only the `user_history` collaborator degrades
internally (inside `get_user_context`); exceptions of the other
collaborators propagate out of context assembly. -/
def _analyze_context (env : ContextEnv) (current : Lang) :
    Except PyErr Ctx := do
  let sys ← env.get_system_state
  let hist := LearningEngine.get_user_context env.get_user_context_body
  let environment ← _get_environment_context env
  pure { timestamp := env.now, language := current, system_state := sys,
         user_history := hist, environment := environment }

/-! The orchestrator (`AdvancedJARVIS.process_command`,
src/jarvis_main.py lines 259-308).  The orchestrator handles the brain's
return value dynamically: it calls `.get` and item access on it.  The
value is either the `AIResponse` dataclass the brain actually returns —
on which `.get` raises `AttributeError` and item access raises
`TypeError` — or a plain dict, modelled by `RespDict` with optional
keys. -/

/-- A dict-shaped response with the keys this code reads or writes;
`none`/`false` model an absent key where `.get` defaults apply. -/
structure RespDict where
  text : String := ""
  success : Option Bool := none
  error : Option String := none
  requires_system_action : Bool := false
  requires_hardware_action : Bool := false
  system_command : Option String := none
  hardware_command : Option String := none
  parameters : Option Params := none
  system_result : Option String := none
  hardware_result : Option String := none
deriving DecidableEq, Repr

/-- A Python value in response position: the `AIResponse` dataclass or a
dict. -/
inductive RespVal where
  | dataclass (r : AIResponse)
  | dict (d : RespDict)
deriving DecidableEq, Repr

/-- The exception `response.get(...)` raises on the dataclass: dataclasses
define no `get` method. -/
def attributeError : PyErr :=
  "AttributeError: 'AIResponse' object has no attribute 'get'"

/-- The exception `response[...]` raises on the dataclass. -/
def typeErrorSubscript : PyErr :=
  "TypeError: 'AIResponse' object is not subscriptable"

/-- The exception `response[...] = ...` raises on the (frozen-shape)
dataclass value in item-assignment position. -/
def typeErrorItemAssign : PyErr :=
  "TypeError: 'AIResponse' object does not support item assignment"

/-- `response.get('requires_system_action')`: `AttributeError` on the
dataclass; on a dict, the stored flag (an absent key is `None`, falsy). -/
def RespVal.getRequiresSystemAction : RespVal → Except PyErr Bool
  | .dataclass _ => .error attributeError
  | .dict d => .ok d.requires_system_action

/-- `response.get('requires_hardware_action')`, likewise. -/
def RespVal.getRequiresHardwareAction : RespVal → Except PyErr Bool
  | .dataclass _ => .error attributeError
  | .dict d => .ok d.requires_hardware_action

/-- `response['system_command']`: `TypeError` on the dataclass, `KeyError`
on a dict missing the key. -/
def RespVal.itemSystemCommand : RespVal → Except PyErr String
  | .dataclass _ => .error typeErrorSubscript
  | .dict d =>
    match d.system_command with
    | some s => .ok s
    | none => .error "KeyError: 'system_command'"

/-- `response['hardware_command']`, likewise. -/
def RespVal.itemHardwareCommand : RespVal → Except PyErr String
  | .dataclass _ => .error typeErrorSubscript
  | .dict d =>
    match d.hardware_command with
    | some s => .ok s
    | none => .error "KeyError: 'hardware_command'"

/-- `response.get('parameters', {})`: `AttributeError` on the dataclass;
on a dict, the stored mapping or the `{}` default. -/
def RespVal.getParameters : RespVal → Except PyErr Params
  | .dataclass _ => .error attributeError
  | .dict d => .ok (d.parameters.getD [])

/-- `response['system_result'] = r`: `TypeError` on the dataclass; on a
dict, store the key. -/
def RespVal.setSystemResult : RespVal → String → Except PyErr RespVal
  | .dataclass _, _ => .error typeErrorItemAssign
  | .dict d, r => .ok (.dict { d with system_result := some r })

/-- `response['hardware_result'] = r`, likewise. -/
def RespVal.setHardwareResult : RespVal → String → Except PyErr RespVal
  | .dataclass _, _ => .error typeErrorItemAssign
  | .dict d, r => .ok (.dict { d with hardware_result := some r })

/-- The orchestrator's collaborators, as `Except`-valued behaviours:
language detection, context assembly, the brain, the two executors and
the learning call, plus the `learning_mode` flag. -/
structure OrchEnv where
  detect_language : String → Except PyErr Lang
  analyze_context : Except PyErr Ctx
  brainProcess : String → Option Ctx → Except PyErr RespVal
  systemExec : String → Params → Except PyErr String
  hardwareExec : String → Params → Except PyErr String
  learn : String → RespVal → Except PyErr Unit
  learning_mode : Bool

/-- Which collaborator calls ran to completion during one orchestrator
invocation. -/
structure Effects where
  systemDispatched : Bool := false
  hardwareDispatched : Bool := false
  learned : Bool := false
deriving DecidableEq, Repr

/-- The orchestrator's outcome: the returned response value, the effect
trace, and the language the manager holds afterwards (the except branch's
`get_text` localizes with it). -/
structure OrchResult where
  result : RespVal
  effects : Effects
  langAfter : Lang
deriving DecidableEq, Repr

/-- The system-dispatch block (src/jarvis_main.py lines 280-285): read the
flag via `.get`; when truthy, read `response['system_command']` and
`response.get('parameters', {})`, call the system executor, and store the
result under `system_result`.  The returned flag records whether the
executor call completed. -/
def systemDispatchStep (env : OrchEnv) (response : RespVal) :
    Except PyErr (RespVal × Bool) :=
  match response.getRequiresSystemAction with
  | .error e => .error e
  | .ok false => .ok (response, false)
  | .ok true =>
    match response.itemSystemCommand with
    | .error e => .error e
    | .ok cmd =>
      match response.getParameters with
      | .error e => .error e
      | .ok ps =>
        match env.systemExec cmd ps with
        | .error e => .error e
        | .ok system_result =>
          match response.setSystemResult system_result with
          | .error e => .error e
          | .ok r => .ok (r, true)

/-- The hardware-dispatch block (lines 288-293), same shape. -/
def hardwareDispatchStep (env : OrchEnv) (response : RespVal) :
    Except PyErr (RespVal × Bool) :=
  match response.getRequiresHardwareAction with
  | .error e => .error e
  | .ok false => .ok (response, false)
  | .ok true =>
    match response.itemHardwareCommand with
    | .error e => .error e
    | .ok cmd =>
      match response.getParameters with
      | .error e => .error e
      | .ok ps =>
        match env.hardwareExec cmd ps with
        | .error e => .error e
        | .ok hardware_result =>
          match response.setHardwareResult hardware_result with
          | .error e => .error e
          | .ok r => .ok (r, true)

/-- The learning block (lines 296-297): call `learn_from_interaction` when
`learning_mode` is set; the returned flag records whether it completed. -/
def learnStep (env : OrchEnv) (command : String) (response : RespVal) :
    Except PyErr Bool :=
  if env.learning_mode then
    match env.learn command response with
    | .error e => .error e
    | .ok _ => .ok true
  else .ok false

/-- The try block of `process_command` after language detection: context
assembly, the brain call, both dispatch blocks, the learning block.  The
result pairs the outcome with the effect trace accumulated so far — also
on the error path, so a failure after a completed dispatch keeps that
dispatch in the trace. -/
def pipelineBody (env : OrchEnv) (command : String) :
    Except PyErr RespVal × Effects :=
  match env.analyze_context with
  | .error e => (.error e, {})
  | .ok context =>
    match env.brainProcess command (some context) with
    | .error e => (.error e, {})
    | .ok response =>
      match systemDispatchStep env response with
      | .error e => (.error e, {})
      | .ok (r1, sysD) =>
        match hardwareDispatchStep env r1 with
        | .error e => (.error e, { systemDispatched := sysD })
        | .ok (r2, hwD) =>
          match learnStep env command r2 with
          | .error e =>
            (.error e, { systemDispatched := sysD, hardwareDispatched := hwD })
          | .ok learned => (.ok r2, { systemDispatched := sysD,
                                      hardwareDispatched := hwD,
                                      learned := learned })

/-- The dict the orchestrator's except branch returns (lines 302-308):
the localized `error_processing` text, `success: False`, and the stringified
exception. -/
def errorResponse (lang : Lang) (e : PyErr) : RespVal :=
  .dict { text := get_text lang "error_processing" none,
          success := some false, error := some e }

/-- `AdvancedJARVIS.process_command` (lines 259-308): detect the language
(updating the manager's current language before anything can fail), run
the pipeline body, and catch any exception at the boundary, converting it
to the generic error dict localized with the language held at the time of
the failure. -/
def AdvancedJARVIS.process_command (env : OrchEnv) (currentLang : Lang)
    (command : String) : OrchResult :=
  match env.detect_language command with
  | .error e =>
    { result := errorResponse currentLang e, effects := {},
      langAfter := currentLang }
  | .ok lang =>
    match pipelineBody env command with
    | (.ok r, eff) => { result := r, effects := eff, langAfter := lang }
    | (.error e, eff) =>
      { result := errorResponse lang e, effects := eff, langAfter := lang }

/-! Helper lemmas about the detection machinery. -/

/-- `Char.ofNat` round-trips on valid scalar values below the surrogate
range. -/
theorem toNat_ofNat_of_lt {n : Nat} (h : n < 0xd800) :
    (Char.ofNat n).toNat = n := by
  unfold Char.ofNat
  split
  · rfl
  · next hn => exact absurd (Or.inl h : Nat.isValidChar n) (by simpa using hn)

/-- Lower-casing keeps a Latin letter a Latin letter. -/
theorem isLatinLetter_pyLower {c : Char} (h : isLatinLetter c = true) :
    isLatinLetter (pyLower c) = true := by
  unfold pyLower
  by_cases hc : (65 ≤ c.toNat && c.toNat ≤ 90) = true
  · rw [if_pos hc]
    simp only [Bool.and_eq_true, decide_eq_true_eq] at hc
    have hv : (Char.ofNat (c.toNat + 32)).toNat = c.toNat + 32 :=
      toNat_ofNat_of_lt (by omega)
    simp only [isLatinLetter, hv, Bool.or_eq_true, Bool.and_eq_true,
      decide_eq_true_eq]
    omega
  · rw [if_neg hc]
    exact h

/-- The Latin and Devanagari character classes are disjoint. -/
theorem not_dev_of_latin {c : Char} (h : isLatinLetter c = true) :
    isDevanagari c = false := by
  simp only [isLatinLetter, Bool.or_eq_true, Bool.and_eq_true,
    decide_eq_true_eq] at h
  rw [Bool.eq_false_iff]
  intro hd
  simp only [isDevanagari, Bool.and_eq_true, decide_eq_true_eq] at hd
  rcases h with h | h <;> omega

/-- A character class that rejects every character of the text scores 0. -/
theorem charClassCount_eq_zero {p : Char → Bool} {t : List Char}
    (h : ∀ c ∈ t, p c = false) : charClassCount p t = 0 := by
  unfold charClassCount
  rw [List.length_eq_zero, List.filter_eq_nil_iff]
  intro a ha
  simp [h a ha]

/-- A character class that accepts every character of the text scores the
text's length. -/
theorem charClassCount_eq_length {p : Char → Bool} {t : List Char}
    (h : ∀ c ∈ t, p c = true) : charClassCount p t = t.length := by
  unfold charClassCount
  rw [List.filter_eq_self.mpr h]

/-- A vocabulary whose words all start with a Devanagari character never
matches in all-Latin text. -/
theorem countWordMatches_eq_zero {alts : List (List Char)}
    (halts : ∀ w ∈ alts, w ≠ [] ∧ isDevanagari w.headI = true) :
    ∀ (t : List Char), (∀ c ∈ t, isLatinLetter c = true) →
      ∀ b, countWordMatches alts t b = 0 := by
  intro t
  induction t with
  | nil => intro _ b; simp [countWordMatches]
  | cons c rest ih =>
    intro ht b
    have hc : isLatinLetter c = true := ht c (List.mem_cons_self c rest)
    have hrest : ∀ x ∈ rest, isLatinLetter x = true :=
      fun x hx => ht x (List.mem_cons_of_mem _ hx)
    have hfa : firstAlt alts (c :: rest) = none := by
      rw [firstAlt, List.find?_eq_none]
      intro w hw
      obtain ⟨hne, hdev⟩ := halts w hw
      obtain ⟨a, tl, rfl⟩ := List.exists_cons_of_ne_nil hne
      simp only [List.headI] at hdev
      intro hm
      rw [altMatch, Bool.and_eq_true] at hm
      have hpre := hm.1
      rw [List.isPrefixOf_iff_prefix, List.cons_prefix_cons] at hpre
      have : isDevanagari c = true := hpre.1 ▸ hdev
      rw [not_dev_of_latin hc] at this
      exact Bool.false_ne_true this
    rw [countWordMatches, hfa]
    cases b
    · simpa using ih hrest (isWordChar c)
    · simpa using ih hrest (isWordChar c)

/-- C7: for every input text, `detect_language` returns the language whose
total pattern-match score over the lower-cased text is strictly higher;
on a tie (including empty input) it returns the currently active language;
and for non-empty input consisting only of Latin-alphabet characters (which
contains no Hindi vocabulary) it returns English. -/
theorem c7_detect_language_scoring :
    (∀ (text : List Char) (current : Lang),
        detect_language text current =
          if hindiScore (text.map pyLower) > englishScore (text.map pyLower)
          then Lang.hindi
          else if englishScore (text.map pyLower) > hindiScore (text.map pyLower)
          then Lang.english
          else current)
    ∧ (∀ (text : List Char) (current : Lang),
        text ≠ [] → (∀ c ∈ text, isLatinLetter c = true) →
        detect_language text current = Lang.english) := by
  constructor
  · intro text current
    cases text with
    | nil =>
      simp [detect_language, hindiScore, englishScore, charClassCount,
        countWordMatches]
    | cons c rest => simp [detect_language]
  · intro text current hne hlat
    have hlat' : ∀ c ∈ text.map pyLower, isLatinLetter c = true := by
      intro c hc
      obtain ⟨a, ha, rfl⟩ := List.mem_map.mp hc
      exact isLatinLetter_pyLower (hlat a ha)
    have hdev0 : charClassCount isDevanagari (text.map pyLower) = 0 :=
      charClassCount_eq_zero (fun c hc => not_dev_of_latin (hlat' c hc))
    have hw1 : countWordMatches hindiWords1 (text.map pyLower) false = 0 :=
      countWordMatches_eq_zero (by decide) _ hlat' false
    have hw2 : countWordMatches hindiWords2 (text.map pyLower) false = 0 :=
      countWordMatches_eq_zero (by decide) _ hlat' false
    have hh : hindiScore (text.map pyLower) = 0 := by
      rw [hindiScore, hdev0, hw1, hw2]
    have hlen : charClassCount isLatinLetter (text.map pyLower) = text.length := by
      rw [charClassCount_eq_length hlat', List.length_map]
    have hpos : 0 < englishScore (text.map pyLower) := by
      have h0 : 0 < text.length := List.length_pos.mpr hne
      rw [englishScore, hlen]
      omega
    have hempty : text.isEmpty = false := by
      cases text
      · exact absurd rfl hne
      · rfl
    simp only [detect_language, hempty, Bool.false_eq_true, if_false, hh]
    rw [if_neg (by omega), if_pos (by omega)]

/-- C7 witness: a concrete all-Latin command is classified as English even
when Hindi is the active language. -/
theorem c7_witness :
    "hello".toList ≠ [] ∧ detect_language "hello".toList Lang.hindi = Lang.english :=
  ⟨by decide,
   c7_detect_language_scoring.2 "hello".toList Lang.hindi (by decide) (by decide)⟩

/-- C5: a command containing `shutdown` (case-insensitively) is classified
`system_control` with confidence 0.9 whatever else it contains, and in
general `_analyze_intent` agrees with first-match-wins classification over
the fixed ordered `intentTable`. -/
theorem c5_intent_first_match :
    (∀ command : List Char,
        containsSub "shutdown".toList (command.map pyLower) = true →
        _analyze_intent command = { type := "system_control", confidence := 0.9 })
    ∧ (∀ command : List Char, _analyze_intent command = classifySpec command) := by
  constructor
  · intro command h
    have hany : containsAny systemControlWords (command.map pyLower) = true := by
      simp only [containsAny, systemControlWords, List.any_cons, h,
        Bool.true_or]
    simp only [_analyze_intent, hany, if_true]
  · intro command
    simp only [_analyze_intent, classifySpec, intentTable, List.find?]
    cases h1 : containsAny systemControlWords (command.map pyLower) <;>
      cases h2 : containsAny fileOperationWords (command.map pyLower) <;>
        cases h3 : containsAny applicationControlWords (command.map pyLower) <;>
          cases h4 : containsAny informationRequestWords (command.map pyLower) <;>
            cases h5 : containsAny systemStatusWords (command.map pyLower) <;>
              simp [h1, h2, h3, h4, h5]

/-- C5 witness: a concrete command containing both `Shutdown` and the
information-request keyword `what` is classified `system_control`/0.9. -/
theorem c5_witness :
    _analyze_intent "Shutdown now, what time is it".toList =
      { type := "system_control", confidence := 0.9 } :=
  c5_intent_first_match.1 "Shutdown now, what time is it".toList (by decide)

/-- One history update leaves at most 20 messages, whatever the starting
length. -/
theorem update_history_length_le (history : List Msg)
    (command responseText : String) :
    (_update_conversation_history history command responseText).length ≤ 20 := by
  unfold _update_conversation_history
  by_cases h : (history ++ [Msg.mk "user" command,
      Msg.mk "assistant" responseText]).length > 20
  · rw [if_pos h]
    rw [List.length_drop]
    omega
  · rw [if_neg h]
    omega

/-- One learning update preserves the 10000-record bound (when learning is
disabled the log is unchanged). -/
theorem learn_length_le (b : Bool) (l : List Interaction) (record : Interaction)
    (h : l.length ≤ 10000) :
    (learn_from_interaction b l record).length ≤ 10000 := by
  unfold learn_from_interaction
  cases b with
  | false => simpa using h
  | true =>
    simp only [Bool.true_eq_false, if_false]
    by_cases h2 : (l ++ [record]).length > 10000
    · rw [if_pos h2, List.length_drop]
      omega
    · rw [if_neg h2]
      omega

/-- C6: the conversation history never exceeds 20 messages and the
interaction log never exceeds 10000 records: each update appends and then
trims, so one update re-establishes the bound and any sequence of updates
preserves it. -/
theorem c6_bounded_histories :
    (∀ (history : List Msg) (command responseText : String),
        (_update_conversation_history history command responseText).length ≤ 20)
    ∧ (∀ (ops : List (String × String)) (init : List Msg),
        init.length ≤ 20 →
        (ops.foldl (fun h p => _update_conversation_history h p.1 p.2)
            init).length ≤ 20)
    ∧ (∀ (b : Bool) (l : List Interaction) (record : Interaction),
        l.length ≤ 10000 →
        (learn_from_interaction b l record).length ≤ 10000)
    ∧ (∀ (b : Bool) (records : List Interaction) (init : List Interaction),
        init.length ≤ 10000 →
        (records.foldl (fun l r => learn_from_interaction b l r)
            init).length ≤ 10000) := by
  refine ⟨update_history_length_le, ?_, learn_length_le, ?_⟩
  · intro ops
    induction ops with
    | nil => intro init h; simpa using h
    | cons p rest ih =>
      intro init _
      simpa using ih (_update_conversation_history init p.1 p.2)
        (update_history_length_le init p.1 p.2)
  · intro b records
    induction records with
    | nil => intro init h; simpa using h
    | cons r rest ih =>
      intro init h
      simpa using ih (learn_from_interaction b init r)
        (learn_length_le b init r h)

/-- C6 witness: a concrete run of two history updates and two learning
updates from empty starting states stays within the bounds. -/
theorem c6_witness :
    (([("hi", "Hello, Sir."), ("time", "It is noon, Sir.")].foldl
        (fun h p => _update_conversation_history h p.1 p.2) []).length ≤ 20)
    ∧ (([Interaction.mk "t1" "hi" "Hello, Sir." none [],
         Interaction.mk "t2" "time" "It is noon, Sir." none []].foldl
        (fun l r => learn_from_interaction true l r) []).length ≤ 10000) :=
  ⟨c6_bounded_histories.2.1 _ [] (by decide),
   c6_bounded_histories.2.2.2 true _ [] (by decide)⟩

/-! Concrete fixtures used by counterexamples and witnesses. -/

/-- A concrete environment snapshot. -/
def envCtxEx : EnvCtx :=
  { time_of_day := "10:00", day_of_week := "Wednesday", system_load := [],
    network_status := [("monitoring_active", "False")],
    active_applications := [] }

/-- A concrete context record as `_analyze_context` builds it. -/
def ctxEx : Ctx :=
  { timestamp := "2025-01-01 10:00:00", language := .english,
    system_state := [("cpu_percent", "12.5")], user_history := [],
    environment := envCtxEx }

/-- A concrete `general` intent. -/
def intentEx : Intent := { type := "general", confidence := 0.5 }

/-- A concrete conversation history of ten messages (five exchanges). -/
def hist10 : List Msg :=
  [Msg.mk "user" "m1", Msg.mk "assistant" "r1",
   Msg.mk "user" "m2", Msg.mk "assistant" "r2",
   Msg.mk "user" "m3", Msg.mk "assistant" "r3",
   Msg.mk "user" "m4", Msg.mk "assistant" "r4",
   Msg.mk "user" "m5", Msg.mk "assistant" "r5"]

/-- C8 counterexample: with a ten-message history and a context present,
the prepared message list has 1 + 5 + 1 + 1 = 8 entries, not the
1 + 10 + 1 + 1 = 13 the claim's "last 5 history exchanges (10 messages)"
would give: `conversation_history[-5:]` takes the last five messages, not
five pairs. -/
theorem c8_counterexample :
    (_prepare_messages "You are JARVIS." hist10 "hello" (some ctxEx)
        intentEx).length = 8 := by
  decide

/-- C8 amended: the prepared list is the persona preamble, the last five
history messages (not five exchanges), the synthesized context message
only when a context dict is present, then the user command; its length is
2 + min 5 (history length) + (1 when context is present). -/
theorem c8_amended_message_layout :
    ∀ (systemPrompt : String) (history : List Msg) (command : String)
      (context : Option Ctx) (intent : Intent),
      _prepare_messages systemPrompt history command context intent =
        [Msg.mk "system" systemPrompt] ++ history.drop (history.length - 5)
          ++ (match context with
              | some c => [Msg.mk "system" (context_info c intent)]
              | none => []) ++ [Msg.mk "user" command]
      ∧ (history.drop (history.length - 5)).length = min 5 history.length
      ∧ (_prepare_messages systemPrompt history command context intent).length
          = 2 + min 5 history.length
            + (match context with | some _ => 1 | none => 0) := by
  intro systemPrompt history command context intent
  have hdrop : (history.drop (history.length - 5)).length = min 5 history.length := by
    rw [List.length_drop]
    omega
  refine ⟨?_, hdrop, ?_⟩
  · cases context <;> simp [_prepare_messages]
  · cases context <;> simp [_prepare_messages, hdrop] <;> omega

/-- A brain environment whose text-generation call returns HTTP 500. -/
def brainEnv500 : BrainEnv :=
  { systemPrompt := "You are JARVIS.",
    post := fun _ => .ok { status_code := 500, content := .error "no body" } }

/-- C2 counterexample: when the service returns status 500 for the command
`shutdown now`, the brain's `AIResponse` has `success = true` (not false),
`confidence = 0.8` (not 0), and `requires_system_action = true` (dispatch
is not suppressed); only the error text part of the claim holds. -/
theorem c2_counterexample :
    (JARVISBrain.process_command brainEnv500 Lang.english [] "shutdown now"
        none).1.success = true
    ∧ (JARVISBrain.process_command brainEnv500 Lang.english [] "shutdown now"
        none).1.confidence = 0.8
    ∧ (JARVISBrain.process_command brainEnv500 Lang.english [] "shutdown now"
        none).1.requires_system_action = true
    ∧ (JARVISBrain.process_command brainEnv500 Lang.english [] "shutdown now"
        none).1.text = get_text Lang.english "api_error" none := by
  exact ⟨rfl, rfl, rfl, rfl⟩

/-- C2 amended: on a non-200 status the response text is the localized
(non-empty) `api_error` string, but the `AIResponse` keeps the defaults of
the success path: `success = true`, `confidence = 0.8`, and
`requires_system_action` set from the intent exactly as on success (so an
action-requiring command still requests dispatch). -/
theorem c2_amended_non200_response :
    ∀ (env : BrainEnv) (current : Lang) (history : List Msg) (command : String)
      (context : Option Ctx) (resp : HttpResp),
      env.post (_prepare_messages env.systemPrompt history command context
          (_analyze_intent command.toList)) = .ok resp →
      resp.status_code ≠ 200 →
      (JARVISBrain.process_command env current history command context).1.text
          = get_text current "api_error" none
      ∧ (JARVISBrain.process_command env current history command
          context).1.text ≠ ""
      ∧ (JARVISBrain.process_command env current history command
          context).1.success = true
      ∧ (JARVISBrain.process_command env current history command
          context).1.confidence = 0.8
      ∧ (JARVISBrain.process_command env current history command
          context).1.requires_system_action
          = (_check_system_commands command (_analyze_intent command.toList)).isSome
      ∧ (JARVISBrain.process_command env current history command
          context).1.requires_hardware_action = false := by
  intro env current history command context resp hpost hstatus
  have hr : (JARVISBrain.process_command env current history command context).1
      = _process_ai_response (get_text current "api_error" none)
          (_check_system_commands command (_analyze_intent command.toList))
          context := by
    simp only [JARVISBrain.process_command, hpost, _get_ai_response,
      if_neg hstatus]
  rw [hr]
  have hne : get_text current "api_error" none ≠ "" := by
    cases current <;> decide
  cases hsa : _check_system_commands command (_analyze_intent command.toList) <;>
    simp [_process_ai_response, hne]

/-- C2 witness: the amended statement at the concrete 500-status
environment and the command `shutdown now`. -/
theorem c2_witness :
    (JARVISBrain.process_command brainEnv500 Lang.english [] "shutdown now"
        none).1.text = get_text Lang.english "api_error" none
    ∧ (JARVISBrain.process_command brainEnv500 Lang.english [] "shutdown now"
        none).1.text ≠ ""
    ∧ (JARVISBrain.process_command brainEnv500 Lang.english [] "shutdown now"
        none).1.success = true
    ∧ (JARVISBrain.process_command brainEnv500 Lang.english [] "shutdown now"
        none).1.confidence = 0.8
    ∧ (JARVISBrain.process_command brainEnv500 Lang.english [] "shutdown now"
        none).1.requires_system_action
        = (_check_system_commands "shutdown now"
            (_analyze_intent "shutdown now".toList)).isSome
    ∧ (JARVISBrain.process_command brainEnv500 Lang.english [] "shutdown now"
        none).1.requires_hardware_action = false :=
  c2_amended_non200_response brainEnv500 Lang.english [] "shutdown now" none
    { status_code := 500, content := .error "no body" } rfl (by decide)

/-- The context environment of the unmodified program: the real
collaborator getters succeed, but `SystemController` defines neither
`get_system_load` nor `get_active_applications`, so those two attribute
lookups raise `AttributeError`. -/
def ctxEnvBroken : ContextEnv :=
  { now := "2025-01-01 10:00:00", time_of_day := "10:00",
    day_of_week := "Wednesday",
    get_system_state := .ok [("cpu_percent", "12.5")],
    get_user_context_body := .ok [("total_interactions", "0")],
    get_system_load :=
      .error "AttributeError: 'SystemController' object has no attribute 'get_system_load'",
    get_status := .ok [("monitoring_active", "False")],
    get_active_applications :=
      .error "AttributeError: 'SystemController' object has no attribute 'get_active_applications'" }

/-- C9 counterexample: when the environment collaborator fails (as it
always does in the unmodified program, whose `get_system_load` call is to
a method that does not exist), context assembly aborts with the exception
instead of returning a context record with a placeholder field. -/
theorem c9_counterexample :
    _analyze_context ctxEnvBroken Lang.english =
      .error "AttributeError: 'SystemController' object has no attribute 'get_system_load'" :=
  rfl

/-- C9 amended: only the interaction-history provider degrades to an
empty placeholder (its getter catches internally); an exception of the
system-state provider, or of any collaborator of the environment block,
propagates out of `_analyze_context` and aborts context assembly. -/
theorem c9_amended_context_assembly :
    (∀ (env : ContextEnv) (current : Lang) (s : Snapshot) (e : PyErr)
       (envc : EnvCtx),
        env.get_system_state = .ok s →
        env.get_user_context_body = .error e →
        _get_environment_context env = .ok envc →
        _analyze_context env current =
          .ok { timestamp := env.now, language := current, system_state := s,
                user_history := [], environment := envc })
    ∧ (∀ (env : ContextEnv) (current : Lang) (e : PyErr),
        env.get_system_state = .error e →
        _analyze_context env current = .error e)
    ∧ (∀ (env : ContextEnv) (current : Lang) (s : Snapshot) (e : PyErr),
        env.get_system_state = .ok s →
        env.get_system_load = .error e →
        _analyze_context env current = .error e) := by
  refine ⟨?_, ?_, ?_⟩
  · intro env current s e envc hs hu he
    simp [_analyze_context, hs, hu, he, LearningEngine.get_user_context,
      Bind.bind, Except.bind, Pure.pure, Except.pure]
  · intro env current e hs
    simp [_analyze_context, hs, Bind.bind, Except.bind]
  · intro env current s e hs hl
    simp [_analyze_context, _get_environment_context, hs, hl, Bind.bind,
      Except.bind]

/-- C9 witness: the amended statement's first and third parts at a
concrete environment whose interaction-history getter body fails. -/
theorem c9_witness :
    _analyze_context
      { ctxEnvBroken with
          get_user_context_body := .error "history store corrupt",
          get_system_load := .ok [("load", "0.2")],
          get_active_applications := .ok ["code"] } Lang.english =
      .ok { timestamp := "2025-01-01 10:00:00", language := Lang.english,
            system_state := [("cpu_percent", "12.5")], user_history := [],
            environment := { time_of_day := "10:00",
                             day_of_week := "Wednesday",
                             system_load := [("load", "0.2")],
                             network_status := [("monitoring_active", "False")],
                             active_applications := ["code"] } } :=
  c9_amended_context_assembly.1
    { ctxEnvBroken with
        get_user_context_body := .error "history store corrupt",
        get_system_load := .ok [("load", "0.2")],
        get_active_applications := .ok ["code"] }
    Lang.english [("cpu_percent", "12.5")] "history store corrupt"
    { time_of_day := "10:00", day_of_week := "Wednesday",
      system_load := [("load", "0.2")],
      network_status := [("monitoring_active", "False")],
      active_applications := ["code"] }
    rfl rfl rfl

/-- C10: every `AIResponse` the brain's pipeline produces keeps the
dataclass defaults `requires_hardware_action = false` and
`hardware_command = none` (`_process_ai_response` only ever sets the
system-action fields); and an orchestrator whose brain always returns
such a dataclass never completes a hardware dispatch. -/
theorem c10_no_hardware_action :
    (∀ (env : BrainEnv) (current : Lang) (history : List Msg)
       (command : String) (context : Option Ctx),
        (JARVISBrain.process_command env current history command
            context).1.requires_hardware_action = false
        ∧ (JARVISBrain.process_command env current history command
            context).1.hardware_command = none)
    ∧ (∀ (oenv : OrchEnv) (cur : Lang) (cmd : String),
        (∀ c ctx, ∃ r, oenv.brainProcess c ctx = .ok (.dataclass r)) →
        (AdvancedJARVIS.process_command oenv cur cmd).effects.hardwareDispatched
          = false) := by
  constructor
  · intro env current history command context
    simp only [JARVISBrain.process_command]
    cases hsa : _check_system_commands command (_analyze_intent command.toList) <;>
      simp [_process_ai_response, hsa]
  · intro oenv cur cmd hdc
    cases hd : oenv.detect_language cmd with
    | error e => simp [AdvancedJARVIS.process_command, hd]
    | ok lang =>
      cases hc : oenv.analyze_context with
      | error e => simp [AdvancedJARVIS.process_command, pipelineBody, hd, hc]
      | ok ctx =>
        obtain ⟨r, hr⟩ := hdc cmd (some ctx)
        simp [AdvancedJARVIS.process_command, pipelineBody, hd, hc, hr,
          systemDispatchStep, RespVal.getRequiresSystemAction]

/-- C10 witness: a concrete orchestrator environment whose brain returns
dataclasses never completes a hardware dispatch. -/
theorem c10_witness :
    (AdvancedJARVIS.process_command
      { detect_language := fun _ => .ok Lang.english,
        analyze_context := .ok ctxEx,
        brainProcess := fun _ _ =>
          .ok (.dataclass { text := "Certainly, Sir.", confidence := 0.8 }),
        systemExec := fun _ _ => .ok "done",
        hardwareExec := fun _ _ => .ok "done",
        learn := fun _ _ => .ok (),
        learning_mode := true }
      Lang.english "hello").effects.hardwareDispatched = false :=
  c10_no_hardware_action.2
    { detect_language := fun _ => .ok Lang.english,
      analyze_context := .ok ctxEx,
      brainProcess := fun _ _ =>
        .ok (.dataclass { text := "Certainly, Sir.", confidence := 0.8 }),
      systemExec := fun _ _ => .ok "done",
      hardwareExec := fun _ _ => .ok "done",
      learn := fun _ _ => .ok (),
      learning_mode := true }
    Lang.english "hello" (fun _ _ => ⟨_, rfl⟩)

/-- C1: whenever the brain returns normally — an `AIResponse` dataclass —
the orchestrator's `.get` call on it raises `AttributeError`, so the
orchestrator takes its exception branch and returns the generic error
dict (localized text, `success: False`, the stringified exception), and
neither dispatch nor the learning call completes. -/
theorem c1_dataclass_response_takes_error_branch :
    ∀ (env : OrchEnv) (cur : Lang) (cmd : String) (lang : Lang) (ctx : Ctx)
      (r : AIResponse),
      env.detect_language cmd = .ok lang →
      env.analyze_context = .ok ctx →
      env.brainProcess cmd (some ctx) = .ok (.dataclass r) →
      AdvancedJARVIS.process_command env cur cmd =
        { result := .dict { text := get_text lang "error_processing" none,
                            success := some false,
                            error := some attributeError },
          effects := { systemDispatched := false, hardwareDispatched := false,
                       learned := false },
          langAfter := lang } := by
  intro env cur cmd lang ctx r hd hc hb
  simp only [AdvancedJARVIS.process_command, pipelineBody, hd, hc, hb,
    systemDispatchStep, RespVal.getRequiresSystemAction]
  rfl

/-- C1 witness: the theorem at a concrete environment whose brain is the
embedded brain pipeline itself, wrapped in the dataclass it really
returns. -/
theorem c1_witness :
    AdvancedJARVIS.process_command
      { detect_language := fun _ => .ok Lang.english,
        analyze_context := .ok ctxEx,
        brainProcess := fun c ctx =>
          .ok (.dataclass (JARVISBrain.process_command
            { systemPrompt := "You are JARVIS.",
              post := fun _ =>
                .ok { status_code := 200, content := .ok "Certainly, Sir." } }
            Lang.english [] c ctx).1),
        systemExec := fun _ _ => .ok "done",
        hardwareExec := fun _ _ => .ok "done",
        learn := fun _ _ => .ok (),
        learning_mode := true }
      Lang.english "shutdown now" =
      { result := .dict { text := get_text Lang.english "error_processing" none,
                          success := some false,
                          error := some attributeError },
        effects := { systemDispatched := false, hardwareDispatched := false,
                     learned := false },
        langAfter := Lang.english } :=
  c1_dataclass_response_takes_error_branch
    { detect_language := fun _ => .ok Lang.english,
      analyze_context := .ok ctxEx,
      brainProcess := fun c ctx =>
        .ok (.dataclass (JARVISBrain.process_command
          { systemPrompt := "You are JARVIS.",
            post := fun _ =>
              .ok { status_code := 200, content := .ok "Certainly, Sir." } }
          Lang.english [] c ctx).1),
      systemExec := fun _ _ => .ok "done",
      hardwareExec := fun _ _ => .ok "done",
      learn := fun _ _ => .ok (),
      learning_mode := true }
    Lang.english "shutdown now" Lang.english ctxEx _ rfl rfl rfl

/-- C3: the orchestrator never propagates an exception: a failure of
language detection, or of any later stage of the pipeline body (context
assembly, the brain call, either dispatch, learning), yields the generic
error dict localized with the language held at the time of the failure,
whose `success` is `False` and whose text is non-empty in both
languages. -/
theorem c3_orchestrator_never_raises :
    (∀ (env : OrchEnv) (cur : Lang) (cmd : String) (e : PyErr),
        env.detect_language cmd = .error e →
        AdvancedJARVIS.process_command env cur cmd =
          { result := errorResponse cur e,
            effects := { systemDispatched := false, hardwareDispatched := false,
                         learned := false },
            langAfter := cur })
    ∧ (∀ (env : OrchEnv) (cur : Lang) (cmd : String) (lang : Lang) (e : PyErr)
         (eff : Effects),
        env.detect_language cmd = .ok lang →
        pipelineBody env cmd = (.error e, eff) →
        AdvancedJARVIS.process_command env cur cmd =
          { result := errorResponse lang e, effects := eff, langAfter := lang })
    ∧ (∀ (lang : Lang) (e : PyErr),
        errorResponse lang e =
          .dict { text := get_text lang "error_processing" none,
                  success := some false, error := some e }
        ∧ get_text lang "error_processing" none ≠ "") := by
  refine ⟨?_, ?_, ?_⟩
  · intro env cur cmd e hd
    simp [AdvancedJARVIS.process_command, hd]
  · intro env cur cmd lang e eff hd hp
    simp [AdvancedJARVIS.process_command, hd, hp]
  · intro lang e
    exact ⟨rfl, by cases lang <;> decide⟩

/-- C3 witness: a concrete environment whose context assembly raises is
converted to the generic error dict with the detected language. -/
theorem c3_witness :
    AdvancedJARVIS.process_command
      { detect_language := fun _ => .ok Lang.hindi,
        analyze_context := .error "psutil failure",
        brainProcess := fun _ _ => .ok (.dict {}),
        systemExec := fun _ _ => .ok "done",
        hardwareExec := fun _ _ => .ok "done",
        learn := fun _ _ => .ok (),
        learning_mode := true }
      Lang.english "नमस्कार" =
      { result := errorResponse Lang.hindi "psutil failure",
        effects := { systemDispatched := false, hardwareDispatched := false,
                     learned := false },
        langAfter := Lang.hindi } :=
  c3_orchestrator_never_raises.2.1
    { detect_language := fun _ => .ok Lang.hindi,
      analyze_context := .error "psutil failure",
      brainProcess := fun _ _ => .ok (.dict {}),
      systemExec := fun _ _ => .ok "done",
      hardwareExec := fun _ _ => .ok "done",
      learn := fun _ _ => .ok (),
      learning_mode := true }
    Lang.english "नमस्कार" Lang.hindi "psutil failure"
    { systemDispatched := false, hardwareDispatched := false, learned := false }
    rfl rfl

/-- C4: when the brain's response is a dict with
`requires_system_action = true` and the system executor's handler raises,
`execute_command` catches the exception and returns the non-empty
`Error executing command: ...` string, which the orchestrator stores under
`system_result`; the response's `success` key is untouched, the hardware
dispatch still executes (when its flag is set), and the learning step
still runs — nothing propagates to the orchestrator's caller. -/
theorem c4_system_executor_error_contained :
    ∀ (env : OrchEnv) (cur : Lang) (cmd : String) (lang : Lang) (ctx : Ctx)
      (d : RespDict) (scmd hcmd hres : String) (hEnv : SysCtrlEnv) (e : PyErr),
      env.detect_language cmd = .ok lang →
      env.analyze_context = .ok ctx →
      env.brainProcess cmd (some ctx) = .ok (.dict d) →
      d.requires_system_action = true →
      d.system_command = some scmd →
      env.systemExec =
        (fun c p => .ok (SystemController.execute_command hEnv c p)) →
      sysBody hEnv scmd (d.parameters.getD []) = .error e →
      d.requires_hardware_action = true →
      d.hardware_command = some hcmd →
      env.hardwareExec hcmd (d.parameters.getD []) = .ok hres →
      (∀ c r, env.learn c r = .ok ()) →
      AdvancedJARVIS.process_command env cur cmd =
        { result := .dict { d with
            system_result := some ("Error executing command: " ++ e),
            hardware_result := some hres },
          effects := { systemDispatched := true, hardwareDispatched := true,
                       learned := env.learning_mode },
          langAfter := lang }
      ∧ ("Error executing command: " ++ e) ≠ ""
      ∧ RespDict.success { d with
            system_result := some ("Error executing command: " ++ e),
            hardware_result := some hres } = d.success := by
  intro env cur cmd lang ctx d scmd hcmd hres hEnv e hd hc hb hflag hscmd
    hsysx hsysbody hhflag hhcmd hhx hlearn
  refine ⟨?_, ?_, rfl⟩
  · simp only [AdvancedJARVIS.process_command, pipelineBody, hd, hc, hb]
    simp only [systemDispatchStep, RespVal.getRequiresSystemAction, hflag,
      RespVal.itemSystemCommand, hscmd, RespVal.getParameters, hsysx,
      SystemController.execute_command, hsysbody, RespVal.setSystemResult]
    simp only [hardwareDispatchStep, RespVal.getRequiresHardwareAction,
      hhflag, RespVal.itemHardwareCommand, hhcmd, RespVal.getParameters,
      hhx, RespVal.setHardwareResult]
    simp only [learnStep]
    cases hlm : env.learning_mode with
    | true => simp only [if_true, hlearn]
    | false => simp only [if_false, Bool.false_eq_true]
  · intro h
    have h1 : ("Error executing command: " ++ e).length = 0 := by
      rw [h]
      rfl
    rw [String.length_append] at h1
    have h2 : ("Error executing command: " : String).length = 25 := rfl
    omega

/-- A concrete dict-shaped response requesting both dispatches. -/
def dEx : RespDict :=
  { text := "Shutting down, Sir.", success := some true,
    requires_system_action := true, requires_hardware_action := true,
    system_command := some "system_control",
    hardware_command := some "hardware_status",
    parameters := some [("action", "shutdown")] }

/-- A system controller whose system-control handler raises. -/
def sysEnvBoom : SysCtrlEnv :=
  { handleSystemControl := fun _ => .error "shutdown privilege denied",
    handleFileOperation := fun _ => .ok "ok",
    handleApplicationControl := fun _ => .ok "ok",
    handleSystemStatus := fun _ => .ok "ok" }

/-- An orchestrator environment combining `dEx` with the raising system
controller and a healthy hardware executor. -/
def orchEnvC4 : OrchEnv :=
  { detect_language := fun _ => .ok Lang.english,
    analyze_context := .ok ctxEx,
    brainProcess := fun _ _ => .ok (.dict dEx),
    systemExec := fun c p => .ok (SystemController.execute_command sysEnvBoom c p),
    hardwareExec := fun _ _ => .ok "Hardware status nominal",
    learn := fun _ _ => .ok (),
    learning_mode := true }

/-- C4 witness: the theorem at the concrete environment — the executor's
exception is stored as the `system_result` error string, the hardware
dispatch and learning still complete, and `success` is untouched. -/
theorem c4_witness :
    AdvancedJARVIS.process_command orchEnvC4 Lang.english
        "shutdown the computer" =
      { result := .dict { dEx with
          system_result :=
            some ("Error executing command: " ++ "shutdown privilege denied"),
          hardware_result := some "Hardware status nominal" },
        effects := { systemDispatched := true, hardwareDispatched := true,
                     learned := true },
        langAfter := Lang.english }
    ∧ ("Error executing command: " ++ "shutdown privilege denied") ≠ ""
    ∧ RespDict.success { dEx with
          system_result :=
            some ("Error executing command: " ++ "shutdown privilege denied"),
          hardware_result := some "Hardware status nominal" } = dEx.success :=
  c4_system_executor_error_contained orchEnvC4 Lang.english
    "shutdown the computer" Lang.english ctxEx dEx "system_control"
    "hardware_status" "Hardware status nominal" sysEnvBoom
    "shutdown privilege denied" rfl rfl rfl rfl rfl rfl rfl rfl rfl rfl
    (fun _ _ => rfl)

end Jarvis
